import Mathlib

/-!
Shallow embedding of the mutagen synchronization endpoint core
(src/session/endpoint.go, src/pkg/session/endpoint_local.go,
src/pkg/synchronization/protocols/docker/protocol.go).

External collaborators (the scanner sync.Scan, the stager, the rsync engine,
protobuf encoding, the filesystem) are out of scope per the specification and
are passed in as oracle parameters describing their outcomes; the control flow
and state updates of the code under src/ are translated directly.
-/

/-- Go error values as manipulated by the endpoint code: either a base message
or a wrapped error carrying added context, as produced by errors.Wrap. -/
inductive GoError where
  | msg (text : String) : GoError
  | wrap (inner : GoError) (context : String) : GoError
  deriving DecidableEq, Repr

/-- Content digests (fixed-width byte strings; the width is irrelevant to the
endpoint control flow modelled here). -/
abbrev Digest := List Nat

/-- Minimal model of sync.Entry: of the entries passed to localEndpoint.stage,
the code under src/ reads only the Digest field (endpoint_local.go line 200). -/
structure Entry where
  digest : Digest
  deriving DecidableEq, Repr

/-- Model of rsync.Signature: block size data and per-block hashes. -/
structure Signature where
  blockSize : Nat
  lastBlockSize : Nat
  hashes : List Digest
  deriving DecidableEq, Repr

/-- The zero value of rsync.Signature, i.e. what make([]rsync.Signature, n)
fills each slot with before the loop in localEndpoint.stage assigns it. -/
def zeroSignature : Signature := ⟨0, 0, []⟩

/-- The result quadruple of localEndpoint.stage: (unstagedPaths, signatures,
receiver, error). The rsync receiver is abstract, represented by a handle. -/
structure StageReturn where
  unstagedPaths : List String
  signatures : List Signature
  receiver : Option Nat
  error : Option GoError
  deriving DecidableEq, Repr

/-- The filtering loop of localEndpoint.stage (endpoint_local.go lines
198-203): walk the (path, entry) pairs in request order and keep the path
exactly when the staging coordinator cannot already provide it. canProvide p d
models stager.Provide(p, d) returning without error. -/
def unstagedOf (canProvide : String → Digest → Bool) :
    List (String × Entry) → List String
  | [] => []
  | (p, entry) :: rest =>
      if canProvide p entry.digest then unstagedOf canProvide rest
      else p :: unstagedOf canProvide rest

/-- localEndpoint.stage (endpoint_local.go lines 194-238). The Go loop
`for i, p := range paths` with `entries[i]` is rendered as a walk over
paths.zip entries (the caller always passes lists of equal length). openSig p
models the open-then-Signature computation for the base at path p, returning
none when the open or the signature computation fails (both branches
`continue`, leaving the zero value in the slot). newReceiver models
rsync.NewReceiver on the unstaged paths and their signatures. -/
def stage (paths : List String) (entries : List Entry)
    (canProvide : String → Digest → Bool)
    (openSig : String → Option Signature)
    (newReceiver : List String → List Signature → Except GoError Nat) :
    StageReturn :=
  let unstagedPaths := unstagedOf canProvide (paths.zip entries)
  if unstagedPaths.length = 0 then
    ⟨[], [], none, none⟩
  else
    let signatures := unstagedPaths.map fun p => (openSig p).getD zeroSignature
    match newReceiver unstagedPaths signatures with
    | .error e => ⟨[], [], none, some (GoError.wrap e "unable to create rsync receiver")⟩
    | .ok receiver => ⟨unstagedPaths, signatures, some receiver, none⟩

/-- Helper: the staging filter loop computes the filter of the request list by
non-providability, projected to paths, in request order. -/
theorem unstagedOf_eq_filter_map (canProvide : String → Digest → Bool)
    (l : List (String × Entry)) :
    unstagedOf canProvide l =
      (l.filter fun pe => !(canProvide pe.1 pe.2.digest)).map Prod.fst := by
  induction l with
  | nil => rfl
  | cons pe rest ih =>
      obtain ⟨p, entry⟩ := pe
      by_cases h : canProvide p entry.digest
      · simp [unstagedOf, h, List.filter, ih]
      · simp [unstagedOf, h, List.filter, ih]

/-- Helper: if every requested pair can already be provided, the filter loop
returns the empty list. -/
theorem unstagedOf_nil_of_all_provided (canProvide : String → Digest → Bool)
    (l : List (String × Entry))
    (h : ∀ pe ∈ l, canProvide pe.1 pe.2.digest = true) :
    unstagedOf canProvide l = [] := by
  induction l with
  | nil => rfl
  | cons pe rest ih =>
      obtain ⟨p, entry⟩ := pe
      have hp := h (p, entry) (List.mem_cons_self _ _)
      simp only [unstagedOf, hp, if_pos]
      exact ih fun q hq => h q (List.mem_cons_of_mem _ hq)

/-- C4: for every stage request over a list of (path, digest) pairs, the set of
paths returned for receiving is exactly the sub-list, in request order, of the
requested pairs that the stager cannot already provide (pairs whose content is
already present are filtered out). -/
theorem stage_unstaged_is_filter (paths : List String) (entries : List Entry)
    (canProvide : String → Digest → Bool) (openSig : String → Option Signature)
    (newReceiver : List String → List Signature → Except GoError Nat)
    (h : (stage paths entries canProvide openSig newReceiver).error = none) :
    (stage paths entries canProvide openSig newReceiver).unstagedPaths =
      ((paths.zip entries).filter fun pe => !(canProvide pe.1 pe.2.digest)).map
        Prod.fst := by
  rw [← unstagedOf_eq_filter_map]
  simp only [stage] at h ⊢
  by_cases he : (unstagedOf canProvide (paths.zip entries)).length = 0
  · rw [List.length_eq_zero.mp he]
    simp
  · simp only [he, if_neg, if_false, ite_false] at h ⊢
    cases hr : newReceiver (unstagedOf canProvide (paths.zip entries))
        ((unstagedOf canProvide (paths.zip entries)).map fun p =>
          (openSig p).getD zeroSignature) with
    | error e => simp [hr] at h
    | ok r => simp [hr]

/-- C4 witness: a concrete stage request with one already-provided and one
missing pair. -/
theorem stage_unstaged_is_filter_witness :
    (stage ["a", "b"] [⟨[1]⟩, ⟨[2]⟩] (fun p _ => p == "a") (fun _ => none)
        (fun _ _ => .ok 7)).unstagedPaths =
      (((["a", "b"].zip ([⟨[1]⟩, ⟨[2]⟩] : List Entry)).filter fun pe =>
          !((fun (p : String) (_ : Digest) => p == "a") pe.1 pe.2.digest)).map
        Prod.fst) :=
  stage_unstaged_is_filter ["a", "b"] [⟨[1]⟩, ⟨[2]⟩] (fun p _ => p == "a")
    (fun _ => none) (fun _ _ => .ok 7) rfl

/-- C8: if every requested (path, digest) pair can already be provided by the
stager, stage returns immediately with no unstaged paths, no signatures, no
receiver and no error, and the result does not depend on the receiver
constructor (no rsync receiver is constructed). -/
theorem stage_all_provided_returns_empty (paths : List String)
    (entries : List Entry) (canProvide : String → Digest → Bool)
    (openSig : String → Option Signature)
    (nr nr' : List String → List Signature → Except GoError Nat)
    (h : ∀ pe ∈ paths.zip entries, canProvide pe.1 pe.2.digest = true) :
    stage paths entries canProvide openSig nr = ⟨[], [], none, none⟩ ∧
    stage paths entries canProvide openSig nr =
      stage paths entries canProvide openSig nr' := by
  have hu := unstagedOf_nil_of_all_provided canProvide (paths.zip entries) h
  constructor <;> simp [stage, hu]

/-- C8 witness: a concrete stage request in which both pairs are already
staged; the result is empty and independent of the receiver constructor. -/
theorem stage_all_provided_returns_empty_witness :
    stage ["a", "b"] [⟨[1]⟩, ⟨[2]⟩] (fun _ _ => true) (fun _ => none)
        (fun _ _ => .ok 7) = ⟨[], [], none, none⟩ ∧
    stage ["a", "b"] [⟨[1]⟩, ⟨[2]⟩] (fun _ _ => true) (fun _ => none)
        (fun _ _ => .ok 7) =
      stage ["a", "b"] [⟨[1]⟩, ⟨[2]⟩] (fun _ _ => true) (fun _ => none)
        (fun _ _ => .error (GoError.msg "receiver failure")) :=
  stage_all_provided_returns_empty ["a", "b"] [⟨[1]⟩, ⟨[2]⟩] (fun _ _ => true)
    (fun _ => none) (fun _ _ => .ok 7)
    (fun _ _ => .error (GoError.msg "receiver failure")) (by decide)

/-- C9: the stage operation returns exactly one signature per unstaged path;
whenever the base at a path cannot be opened or its signature cannot be
computed, the zero-value empty signature is used for that path, and a per-path
failure never aborts the operation (the only error stage can return is a
wrapped receiver-construction error). -/
theorem stage_one_signature_per_path (paths : List String)
    (entries : List Entry) (canProvide : String → Digest → Bool)
    (openSig : String → Option Signature)
    (nr : List String → List Signature → Except GoError Nat) :
    (stage paths entries canProvide openSig nr).signatures =
      (stage paths entries canProvide openSig nr).unstagedPaths.map
        (fun p => (openSig p).getD zeroSignature) ∧
    ((stage paths entries canProvide openSig nr).error = none ∨
      ∃ e, (stage paths entries canProvide openSig nr).error =
        some (GoError.wrap e "unable to create rsync receiver")) := by
  simp only [stage]
  by_cases he : (unstagedOf canProvide (paths.zip entries)).length = 0
  · simp [he]
  · cases hr : nr (unstagedOf canProvide (paths.zip entries))
        ((unstagedOf canProvide (paths.zip entries)).map fun p =>
          (openSig p).getD zeroSignature) with
    | error e => refine ⟨by simp [he, hr], Or.inr ⟨e, by simp [he, hr]⟩⟩
    | ok r => exact ⟨by simp [he, hr], Or.inl (by simp [he, hr])⟩

/-- Model of sync.Cache (external to src/): carried around and compared but
never inspected by the endpoint code. -/
structure Cache where
  entries : List (String × Digest)
  deriving DecidableEq, Repr

/-- The empty cache, i.e. a fresh sync.Cache literal. -/
def emptyCache : Cache := ⟨[]⟩

/-- Model of the ignore cache map (external to src/): carried around but never
inspected by the endpoint code. -/
abbrev IgnoreCache := List ((String × Bool) × Bool)

/-- The scan-related mutable fields of localEndpoint (endpoint_local.go lines
37-52) that localEndpoint.scan reads and writes under scanLock. -/
structure LocalEndpointScanState where
  cacheWriteError : Option GoError
  cache : Cache
  ignoreCache : IgnoreCache
  recomposeUnicode : Bool
  deriving DecidableEq, Repr

/-- Outcome of one call to the external scanner sync.Scan: either an error, or
the tuple (result, preservesExecutability, recomposeUnicode, newCache,
newIgnoreCache) it returns on success. -/
inductive ScanOutcome where
  | err (e : GoError)
  | ok (result : Entry) (preservesExecutability : Bool)
      (recomposeUnicode : Bool) (newCache : Cache) (newIgnoreCache : IgnoreCache)
  deriving DecidableEq, Repr

/-- The result quadruple of localEndpoint.scan: (snapshot, executability
preservation, error, try-again flag). -/
structure ScanReturn where
  result : Option Entry
  preservesExecutability : Bool
  error : Option GoError
  tryAgain : Bool
  deriving DecidableEq, Repr

/-- localEndpoint.scan (endpoint_local.go lines 152-192), linearized. The
background goroutine spawned on the success path holds scanLock until
MarshalAndSaveProtobuf completes and records its error, if any, in
cacheWriteError; since no other scan can enter the critical section before
that goroutine unlocks, one scan together with its background write is modelled
as a single step whose write outcome is writeRes. On entry, if cacheWriteError
is set the scan fails fatally (tryAgain = false) with the stored error wrapped,
and no field is touched; if the scanner fails, the error is returned with
tryAgain = true and no field is touched; otherwise the cache, ignore cache and
Unicode-recomposition fields are replaced by the scanner's outputs and the
write outcome is recorded. -/
def localEndpointScan (st : LocalEndpointScanState) (scanRes : ScanOutcome)
    (writeRes : Option GoError) : ScanReturn × LocalEndpointScanState :=
  match st.cacheWriteError with
  | some cwe =>
      (⟨none, false, some (GoError.wrap cwe "unable to save cache to disk"), false⟩, st)
  | none =>
    match scanRes with
    | .err e => (⟨none, false, some e, true⟩, st)
    | .ok result preservesExecutability recomposeUnicode newCache newIgnoreCache =>
        (⟨some result, preservesExecutability, none, false⟩,
         { cacheWriteError :=
             match writeRes with
             | some e => some e
             | none => st.cacheWriteError,
           cache := newCache,
           ignoreCache := newIgnoreCache,
           recomposeUnicode := recomposeUnicode })

/-- A sequence of scan calls on the endpoint: each list element supplies the
scanner outcome and the background cache-write outcome for one call. Returns
the list of scan results and the final endpoint state. -/
def localEndpointScanRuns :
    LocalEndpointScanState → List (ScanOutcome × Option GoError) →
    List ScanReturn × LocalEndpointScanState
  | st, [] => ([], st)
  | st, (s, w) :: rest =>
      let step := localEndpointScan st s w
      let later := localEndpointScanRuns step.2 rest
      (step.1 :: later.1, later.2)

/-- C1: once a background cache persistence has failed, every subsequent scan
call returns a fatal error (tryAgain = false) wrapping the stored cache-write
error, and the in-memory cache, ignore cache and recompose-Unicode fields are
never mutated again: the state is unchanged by any sequence of later scans. -/
theorem scan_cacheWriteError_sticky (st : LocalEndpointScanState) (e : GoError)
    (h : st.cacheWriteError = some e)
    (runs : List (ScanOutcome × Option GoError)) :
    (∀ r ∈ (localEndpointScanRuns st runs).1,
        r = ⟨none, false, some (GoError.wrap e "unable to save cache to disk"),
          false⟩) ∧
    (localEndpointScanRuns st runs).2 = st := by
  induction runs with
  | nil =>
      refine ⟨?_, rfl⟩
      intro r hr
      simp [localEndpointScanRuns] at hr
  | cons sw rest ih =>
      obtain ⟨s, w⟩ := sw
      have hstep : localEndpointScan st s w =
          (⟨none, false, some (GoError.wrap e "unable to save cache to disk"),
            false⟩, st) := by
        simp [localEndpointScan, h]
      constructor
      · intro r hr
        simp only [localEndpointScanRuns, hstep, List.mem_cons] at hr
        rcases hr with hr | hr
        · exact hr
        · exact ih.1 r hr
      · simp only [localEndpointScanRuns, hstep]
        exact ih.2

/-- C1 witness: a concrete endpoint state with a stored cache-write error and
two subsequent scan calls (one scanner failure, one scanner success): both
return the fatal wrapped error and the state is unchanged. -/
theorem scan_cacheWriteError_sticky_witness :
    (∀ r ∈ (localEndpointScanRuns
        ⟨some (GoError.msg "read-only cache directory"), emptyCache, [], false⟩
        [(ScanOutcome.err (GoError.msg "transient scan failure"), none),
         (ScanOutcome.ok ⟨[3]⟩ true true ⟨[("f", [4])]⟩ [] , some (GoError.msg "x"))]).1,
        r = ⟨none, false,
          some (GoError.wrap (GoError.msg "read-only cache directory")
            "unable to save cache to disk"), false⟩) ∧
    (localEndpointScanRuns
        ⟨some (GoError.msg "read-only cache directory"), emptyCache, [], false⟩
        [(ScanOutcome.err (GoError.msg "transient scan failure"), none),
         (ScanOutcome.ok ⟨[3]⟩ true true ⟨[("f", [4])]⟩ [] , some (GoError.msg "x"))]).2 =
      ⟨some (GoError.msg "read-only cache directory"), emptyCache, [], false⟩ :=
  scan_cacheWriteError_sticky
    ⟨some (GoError.msg "read-only cache directory"), emptyCache, [], false⟩
    (GoError.msg "read-only cache directory") rfl
    [(ScanOutcome.err (GoError.msg "transient scan failure"), none),
     (ScanOutcome.ok ⟨[3]⟩ true true ⟨[("f", [4])]⟩ [] , some (GoError.msg "x"))]

/-- The scanResponse message of the control path in src/session/endpoint.go:
the TryAgain flag and the snapshot delta (a byte stream, modelled as a list;
the zero value of the omitted SnapshotDelta field is the empty list). -/
structure ScanResponseMsg where
  tryAgain : Bool
  snapshotDelta : List Nat
  deriving DecidableEq, Repr

/-- endpoint.handleScan (endpoint.go lines 252-278). Oracles: scanRes models
sync.Scan(root, hasher, cache, ignores); saveRes models
MarshalAndSaveProtobuf(cachePath, newCache); marshalRes models
marshalEntry(snapshot); deltafyBytes models scanEngine.DeltafyBytes. A scanner
failure produces the try-again response with the cache unchanged; a cache save
failure or a snapshot marshal failure is returned as an error (in Go the
marshal failure leaves e.cache already updated; the error return carries no
state here because serveControl terminates on it). -/
def handleScan (cache : Cache) (baseSnapshotSignature : Signature)
    (scanRes : Except GoError (Entry × Cache))
    (saveRes : Cache → Option GoError)
    (marshalRes : Entry → Except GoError (List Nat))
    (deltafyBytes : List Nat → Signature → List Nat) :
    Except GoError (ScanResponseMsg × Cache) :=
  match scanRes with
  | .error _ => .ok (⟨true, []⟩, cache)
  | .ok (snapshot, newCache) =>
    match saveRes newCache with
    | some e => .error (GoError.wrap e "unable to save cache")
    | none =>
      match marshalRes snapshot with
      | .error e => .error (GoError.wrap e "unable to marshal snapshot")
      | .ok snapshotBytes =>
          .ok (⟨false, deltafyBytes snapshotBytes baseSnapshotSignature⟩, newCache)

/-- Outcome of one iteration of the serveControl loop for a scan request:
either the response is sent and the loop continues with the updated cache, or
serveControl returns an error and the connection fails. -/
inductive ControlStep where
  | respondAndContinue (response : ScanResponseMsg) (cache : Cache)
  | fatal (e : GoError)
  deriving DecidableEq, Repr

/-- The scan branch of endpoint.serveControl (endpoint.go lines 230-235): a
handleScan error terminates the control loop with a wrapped fatal error, an
encode failure likewise; otherwise the response is encoded and the loop
continues. encodeRes models stream.Encode(response). -/
def serveControlScan (cache : Cache) (baseSnapshotSignature : Signature)
    (scanRes : Except GoError (Entry × Cache))
    (saveRes : Cache → Option GoError)
    (marshalRes : Entry → Except GoError (List Nat))
    (deltafyBytes : List Nat → Signature → List Nat)
    (encodeRes : ScanResponseMsg → Option GoError) : ControlStep :=
  match handleScan cache baseSnapshotSignature scanRes saveRes marshalRes
      deltafyBytes with
  | .error e => .fatal (GoError.wrap e "unable to perform scan")
  | .ok (response, newCache) =>
    match encodeRes response with
    | some e => .fatal (GoError.wrap e "unable to send scan response")
    | none => .respondAndContinue response newCache

/-- C2 counterexample: with no cache-persistence failure at all (the save
oracle always succeeds), a snapshot marshal failure still makes the scan
fatal: serveControl terminates with an error that is not a cache-persistence
error, refuting the clause that only cache-persistence errors make a scan
fatal. -/
theorem scan_marshal_failure_fatal_counterexample :
    serveControlScan emptyCache zeroSignature (.ok (⟨[]⟩, emptyCache))
        (fun _ => none) (fun _ => .error (GoError.msg "marshal failure"))
        (fun _ _ => []) (fun _ => none) =
      ControlStep.fatal (GoError.wrap
        (GoError.wrap (GoError.msg "marshal failure")
          "unable to marshal snapshot")
        "unable to perform scan") := rfl

/-- C2 (amended): whenever the filesystem scan itself fails, the endpoint
replies with try_again = true and an empty snapshot delta, the in-memory cache
is unchanged, the failure is not fatal and the control loop continues (when the
response can be encoded); the only errors that make a scan fatal are
cache-persistence errors and snapshot-marshalling errors. -/
theorem scan_transient_try_again (cache : Cache) (baseSig : Signature)
    (scanRes : Except GoError (Entry × Cache))
    (saveRes : Cache → Option GoError)
    (marshalRes : Entry → Except GoError (List Nat))
    (deltafyBytes : List Nat → Signature → List Nat)
    (encodeRes : ScanResponseMsg → Option GoError) :
    (∀ e0, scanRes = .error e0 →
      handleScan cache baseSig scanRes saveRes marshalRes deltafyBytes =
        .ok (⟨true, []⟩, cache) ∧
      (encodeRes ⟨true, []⟩ = none →
        serveControlScan cache baseSig scanRes saveRes marshalRes deltafyBytes
            encodeRes =
          ControlStep.respondAndContinue ⟨true, []⟩ cache)) ∧
    (∀ e, handleScan cache baseSig scanRes saveRes marshalRes deltafyBytes =
        .error e →
      (∃ e0, e = GoError.wrap e0 "unable to save cache") ∨
      (∃ e0, e = GoError.wrap e0 "unable to marshal snapshot")) := by
  constructor
  · intro e0 hs
    subst hs
    refine ⟨rfl, ?_⟩
    intro henc
    simp [serveControlScan, handleScan, henc]
  · intro e he
    cases scanRes with
    | error e1 => simp [handleScan] at he
    | ok pr =>
      obtain ⟨snapshot, newCache⟩ := pr
      cases hs : saveRes newCache with
      | some e1 =>
        simp [handleScan, hs] at he
        exact Or.inl ⟨e1, he.symm⟩
      | none =>
        cases hm : marshalRes snapshot with
        | error e1 =>
          simp [handleScan, hs, hm] at he
          exact Or.inr ⟨e1, he.symm⟩
        | ok snapshotBytes => simp [handleScan, hs, hm] at he

/-- C2 witness: a concrete scanner failure yields the try-again response with
the cache unchanged and a continuing control loop, and a concrete fatal
handleScan error is of one of the two permitted shapes. -/
theorem scan_transient_try_again_witness :
    (handleScan emptyCache zeroSignature (.error (GoError.msg "io error"))
        (fun _ => none) (fun _ => .ok []) (fun _ _ => []) =
      .ok (⟨true, []⟩, emptyCache)) ∧
    (serveControlScan emptyCache zeroSignature (.error (GoError.msg "io error"))
        (fun _ => none) (fun _ => .ok []) (fun _ _ => []) (fun _ => none) =
      ControlStep.respondAndContinue ⟨true, []⟩ emptyCache) ∧
    ((∃ e0, GoError.wrap (GoError.msg "disk full") "unable to save cache" =
        GoError.wrap e0 "unable to save cache") ∨
      ∃ e0, GoError.wrap (GoError.msg "disk full") "unable to save cache" =
        GoError.wrap e0 "unable to marshal snapshot") :=
  ⟨((scan_transient_try_again emptyCache zeroSignature
        (.error (GoError.msg "io error")) (fun _ => none) (fun _ => .ok [])
        (fun _ _ => []) (fun _ => none)).1 _ rfl).1,
   ((scan_transient_try_again emptyCache zeroSignature
        (.error (GoError.msg "io error")) (fun _ => none) (fun _ => .ok [])
        (fun _ _ => []) (fun _ => none)).1 _ rfl).2 rfl,
   (scan_transient_try_again emptyCache zeroSignature (.ok (⟨[]⟩, emptyCache))
        (fun _ => some (GoError.msg "disk full")) (fun _ => .ok [])
        (fun _ _ => []) (fun _ => none)).2 _ rfl⟩

/-- Model of sync.Problem: a per-entry failure report (path, reason). -/
structure Problem where
  path : String
  reason : String
  deriving DecidableEq, Repr

/-- The result triple of localEndpoint.transition: the applied-entry list, the
collected problems and the (always nil) error. -/
structure TransitionReturn where
  results : List Entry
  problems : List Problem
  error : Option GoError
  deriving DecidableEq, Repr

/-- Observable effects of serving one Transition request, in the order they
are performed. -/
inductive EndpointEvent where
  | runApplier
  | wipeStager (failed : Bool)
  | reply (results : List Entry) (problems : List Problem)
  deriving DecidableEq, Repr

/-- localEndpoint.transition (endpoint_local.go lines 244-259): run the
transition applier sync.Transition (whose outputs, the applied entries and the
per-entry problems, are the oracle arguments), then wipe the staging directory
with the wipe outcome ignored, then return the results and problems with a nil
error. The second component is the ordered trace of effects performed. -/
def localEndpointTransition (applierResults : List Entry)
    (applierProblems : List Problem) (wipeRes : Option GoError) :
    TransitionReturn × List EndpointEvent :=
  (⟨applierResults, applierProblems, none⟩,
   [EndpointEvent.runApplier, EndpointEvent.wipeStager wipeRes.isSome])

/-- One Transition request served end to end: endpoint.handleTransition
performs the applier run and the stager wipe (endpoint.go lines 296-313), and
only afterwards does serveControl encode the response onto the control stream
(endpoint.go line 243). The trace therefore ends with the reply event. -/
def handleTransitionEvents (applierResults : List Entry)
    (applierProblems : List Problem) (wipeRes : Option GoError) :
    List EndpointEvent :=
  (localEndpointTransition applierResults applierProblems wipeRes).2 ++
    [EndpointEvent.reply applierResults applierProblems]

/-- C3 counterexample: at a concrete Transition request, the reply-then-wipe
order asserted by the claim does not occur in the effect trace; the code wipes
the stager first and replies afterwards. -/
theorem transition_wipe_before_reply_counterexample :
    ¬ ([EndpointEvent.reply [] [], EndpointEvent.wipeStager false].Sublist
        (handleTransitionEvents [] [] none)) ∧
    ([EndpointEvent.wipeStager false, EndpointEvent.reply [] []].Sublist
        (handleTransitionEvents [] [] none)) := by
  decide

/-- C3 (amended): for every Transition request the endpoint runs the applier,
wipes the stager unconditionally, and then replies with the applied-changes
list and the collected per-entry problems; problems never produce an error
(the error component is always nil), and a wipe failure is swallowed: it
affects neither the returned results nor the reply event. -/
theorem transition_wipes_then_replies (applierResults : List Entry)
    (applierProblems : List Problem) (wipeRes wipeRes' : Option GoError) :
    (localEndpointTransition applierResults applierProblems wipeRes).1 =
      ⟨applierResults, applierProblems, none⟩ ∧
    EndpointEvent.wipeStager wipeRes.isSome ∈
      handleTransitionEvents applierResults applierProblems wipeRes ∧
    (localEndpointTransition applierResults applierProblems wipeRes).1 =
      (localEndpointTransition applierResults applierProblems wipeRes').1 ∧
    handleTransitionEvents applierResults applierProblems wipeRes =
      [EndpointEvent.runApplier, EndpointEvent.wipeStager wipeRes.isSome,
       EndpointEvent.reply applierResults applierProblems] := by
  refine ⟨rfl, ?_, rfl, rfl⟩
  simp [handleTransitionEvents, localEndpointTransition]

/-- Timestamps of the observable events of one successful localEndpoint.scan
call together with its background persistence goroutine (endpoint_local.go
lines 152-192): the scanLock acquisition (line 154), the mutation of the
cache, ignore cache and recompose-Unicode fields (lines 177-179), the return
of the scan result to the caller (line 191), the completion of
MarshalAndSaveProtobuf in the background goroutine (line 184), and the
scanLock release by that goroutine (line 187). -/
structure ScanTiming where
  lockT : Nat
  mutateT : Nat
  respondT : Nat
  writeT : Nat
  unlockT : Nat
  deriving DecidableEq, Repr

/-- Program order of one successful scan, read off the statement order of
localEndpoint.scan: the lock is taken first, the fields are mutated, the
function returns after spawning the background goroutine, and that goroutine
performs the disk write and only then unlocks. The return is concurrent with
the background write: no order between respondT and writeT is imposed. -/
def scanProgramOrder (s : ScanTiming) : Prop :=
  s.lockT < s.mutateT ∧ s.mutateT < s.respondT ∧
  s.mutateT < s.writeT ∧ s.writeT < s.unlockT

/-- Mutual exclusion of sync.Mutex: the lock-protected regions of two scan
calls, each spanning from its Lock to the Unlock performed by its background
goroutine, are disjoint in time. -/
def mutexDisjoint (a b : ScanTiming) : Prop :=
  a.unlockT < b.lockT ∨ b.unlockT < a.lockT

/-- A valid interleaving of two successful scan calls on the same endpoint:
both respect the program order of localEndpoint.scan and the scanLock
exclusion. -/
def validTwoScans (a b : ScanTiming) : Prop :=
  scanProgramOrder a ∧ scanProgramOrder b ∧ mutexDisjoint a b

/-- C5 counterexample: a valid execution in which the first scan's result is
returned (and hence its response emitted) strictly before its cache write
completes, so a successful scan response does not imply that the cache is
already durable at response time. -/
theorem scan_response_before_write_counterexample :
    validTwoScans ⟨0, 1, 2, 3, 4⟩ ⟨5, 6, 7, 8, 9⟩ ∧
    (⟨0, 1, 2, 3, 4⟩ : ScanTiming).respondT <
      (⟨0, 1, 2, 3, 4⟩ : ScanTiming).writeT := by
  unfold validTwoScans scanProgramOrder mutexDisjoint
  decide

/-- C5 (amended): the scan mutex is held from the start of a scan until the
background persistence of that scan's cache completes, so a second scan can
never acquire the lock, and hence never begin mutating or observing the scan
fields, before the previous scan's cache write has finished; durability of a
scan's cache is thus guaranteed by the time any subsequent scan runs, though
not necessarily at the moment the scan's own response is emitted. -/
theorem scan_serialized_behind_persistence (a b : ScanTiming)
    (h : validTwoScans a b) (hfirst : a.lockT < b.lockT) :
    a.lockT < a.writeT ∧ a.writeT < a.unlockT ∧
    a.writeT < b.lockT ∧ a.writeT < b.mutateT := by
  obtain ⟨⟨ha1, ha2, ha3, ha4⟩, ⟨hb1, hb2, hb3, hb4⟩, hm⟩ := h
  unfold mutexDisjoint at hm
  omega

/-- C5 witness: the amended theorem applied to a concrete valid interleaving
of two scans. -/
theorem scan_serialized_behind_persistence_witness :
    (⟨0, 1, 2, 3, 4⟩ : ScanTiming).lockT < (⟨0, 1, 2, 3, 4⟩ : ScanTiming).writeT ∧
    (⟨0, 1, 2, 3, 4⟩ : ScanTiming).writeT < (⟨0, 1, 2, 3, 4⟩ : ScanTiming).unlockT ∧
    (⟨0, 1, 2, 3, 4⟩ : ScanTiming).writeT < (⟨5, 6, 7, 8, 9⟩ : ScanTiming).lockT ∧
    (⟨0, 1, 2, 3, 4⟩ : ScanTiming).writeT <
      (⟨5, 6, 7, 8, 9⟩ : ScanTiming).mutateT :=
  scan_serialized_behind_persistence ⟨0, 1, 2, 3, 4⟩ ⟨5, 6, 7, 8, 9⟩
    (by unfold validTwoScans scanProgramOrder mutexDisjoint; decide)
    (by decide)

/-- The cache-loading step of newLocalEndpoint (endpoint_local.go lines
106-115): start from a fresh empty cache; if LoadAndUnmarshalProtobuf fails
(including when the file is absent) replace with an empty cache, else if
EnsureValid fails replace with an empty cache. loadRes models the load (the
cache contents on success, the error otherwise); ensureValid models
cache.EnsureValid(). -/
def initialCache (loadRes : Except GoError Cache)
    (ensureValid : Cache → Option GoError) : Cache :=
  match loadRes with
  | .error _ => emptyCache
  | .ok cache =>
    match ensureValid cache with
    | some _ => emptyCache
    | none => cache

/-- The localEndpoint value assembled by newLocalEndpoint: the static root and
cache path, the scan state (cacheWriteError, ignoreCache and recomposeUnicode
start at their zero values; the cache is the loaded-or-empty one) and the
staging coordinator handle. -/
structure LocalEndpoint where
  root : String
  cachePath : String
  scanState : LocalEndpointScanState
  stager : Nat
  deriving DecidableEq, Repr

/-- newLocalEndpoint (endpoint_local.go lines 55-136), restricted to its
fallible steps and the fields the claims are about. normalizeRes models
filesystem.Normalize(root); cachePathRes models pathForCache(session, alpha);
loadRes and ensureValid model the cache-loading step; newStagerRes models
newStager(session, version, alpha). The symlink, watch and ignore
configuration steps are infallible and touch none of the modelled fields. -/
def newLocalEndpoint (normalizeRes : Except GoError String)
    (cachePathRes : Except GoError String) (loadRes : Except GoError Cache)
    (ensureValid : Cache → Option GoError)
    (newStagerRes : Except GoError Nat) : Except GoError LocalEndpoint :=
  match normalizeRes with
  | .error e => .error (GoError.wrap e "unable to normalize root path")
  | .ok root =>
    match cachePathRes with
    | .error e => .error (GoError.wrap e "unable to compute/create cache path")
    | .ok cachePath =>
      let cache := initialCache loadRes ensureValid
      match newStagerRes with
      | .error e => .error (GoError.wrap e "unable to create staging coordinator")
      | .ok stager =>
          .ok ⟨root, cachePath, ⟨none, cache, [], false⟩, stager⟩

/-- C6: when the other initialization steps succeed, endpoint initialization
always succeeds regardless of the cache load and validation outcomes (it
never fails because of them), and a cache file that is absent, fails to load,
or fails validation is silently replaced with the empty cache. -/
theorem newLocalEndpoint_tolerates_cache_failure (root cachePath : String)
    (stager : Nat) (loadRes : Except GoError Cache)
    (ensureValid : Cache → Option GoError) :
    (∃ le, newLocalEndpoint (.ok root) (.ok cachePath) loadRes ensureValid
        (.ok stager) = .ok le) ∧
    (∀ e, loadRes = .error e →
      newLocalEndpoint (.ok root) (.ok cachePath) loadRes ensureValid
          (.ok stager) =
        .ok ⟨root, cachePath, ⟨none, emptyCache, [], false⟩, stager⟩) ∧
    (∀ c e, loadRes = .ok c → ensureValid c = some e →
      newLocalEndpoint (.ok root) (.ok cachePath) loadRes ensureValid
          (.ok stager) =
        .ok ⟨root, cachePath, ⟨none, emptyCache, [], false⟩, stager⟩) := by
  refine ⟨⟨⟨root, cachePath, ⟨none, initialCache loadRes ensureValid, [], false⟩,
      stager⟩, rfl⟩, ?_, ?_⟩
  · intro e he
    subst he
    rfl
  · intro c e hc hv
    subst hc
    simp [newLocalEndpoint, initialCache, hv]

/-- C6 witness: a concrete endpoint initialization whose cache load fails and
one whose loaded cache fails validation; both initializations succeed with the
empty cache. -/
theorem newLocalEndpoint_tolerates_cache_failure_witness :
    (∃ le, newLocalEndpoint (.ok "/root") (.ok "/cache") (.error (GoError.msg "no such file"))
        (fun _ => none) (.ok 1) = .ok le) ∧
    (newLocalEndpoint (.ok "/root") (.ok "/cache") (.error (GoError.msg "no such file"))
        (fun _ => none) (.ok 1) =
      .ok ⟨"/root", "/cache", ⟨none, emptyCache, [], false⟩, 1⟩) ∧
    (newLocalEndpoint (.ok "/root") (.ok "/cache") (.ok ⟨[("", [])]⟩)
        (fun _ => some (GoError.msg "empty path")) (.ok 1) =
      .ok ⟨"/root", "/cache", ⟨none, emptyCache, [], false⟩, 1⟩) :=
  ⟨(newLocalEndpoint_tolerates_cache_failure "/root" "/cache" 1
      (.error (GoError.msg "no such file")) (fun _ => none)).1,
   (newLocalEndpoint_tolerates_cache_failure "/root" "/cache" 1
      (.error (GoError.msg "no such file")) (fun _ => none)).2.1 _ rfl,
   (newLocalEndpoint_tolerates_cache_failure "/root" "/cache" 1
      (.ok ⟨[("", [])]⟩) (fun _ => some (GoError.msg "empty path"))).2.2 _ _ rfl rfl⟩

/-- Synchronization URL protocols (pkg/url's Protocol enumeration, restricted
to the values the Docker handler distinguishes). -/
inductive Protocol where
  | Local
  | SSH
  | Docker
  deriving DecidableEq, Repr

/-- Synchronization URL kinds (pkg/url's Kind enumeration). -/
inductive Kind where
  | Synchronization
  | Forwarding
  deriving DecidableEq, Repr

/-- The global protocol-handler registry pkg/synchronization.ProtocolHandlers:
a mapping from protocol to a registered handler, modelled as an abstract
handler identifier. -/
abbrev ProtocolHandlerRegistry := Protocol → Option Nat

/-- The registry as declared, before any package initialization runs: empty. -/
def emptyProtocolHandlers : ProtocolHandlerRegistry := fun _ => none

/-- Abstract identifier standing for the docker package's protocolHandler
value. -/
def dockerHandlerId : Nat := 0

/-- The func init of the Docker protocol package (protocol.go lines 50-53):
at package load time, before main runs, it stores a protocolHandler value in
the global ProtocolHandlers map under the Docker protocol key. -/
def dockerPackageLoad (registry : ProtocolHandlerRegistry) :
    ProtocolHandlerRegistry :=
  fun p => if p = Protocol.Docker then some dockerHandlerId else registry p

/-- The global registry as observed by the session layer after module load:
Go runs every package init function before main, so the Docker handler is
installed without any explicit table construction. -/
def protocolHandlersAfterLoad : ProtocolHandlerRegistry :=
  dockerPackageLoad emptyProtocolHandlers

/-- C7 counterexample: the Docker handler does add itself implicitly at module
load time to the global protocol-handler registry: running the package init on
the empty registry installs a handler under the Docker key, so handler
installation is not confined to an explicit table built at process start. -/
theorem docker_handler_implicit_registration_counterexample :
    protocolHandlersAfterLoad Protocol.Docker = some dockerHandlerId ∧
    emptyProtocolHandlers Protocol.Docker = none ∧
    protocolHandlersAfterLoad Protocol.Docker ≠
      emptyProtocolHandlers Protocol.Docker := by
  refine ⟨rfl, rfl, ?_⟩
  decide

/-- C7 (amended): the Docker protocol handler registers itself implicitly at
module load time in the global synchronization.ProtocolHandlers registry via
its package init function, and that init touches no other protocol's entry. -/
theorem docker_handler_registers_at_load :
    protocolHandlersAfterLoad Protocol.Docker = some dockerHandlerId ∧
    protocolHandlersAfterLoad Protocol.SSH = none ∧
    protocolHandlersAfterLoad Protocol.Local = none := by
  refine ⟨rfl, rfl, rfl⟩

/-- The fields of a pkg/url URL consulted by the Docker protocol handler's
Connect: the kind and protocol checks plus the host, user and path forwarded
to the transport and the endpoint client. -/
structure URL where
  kind : Kind
  protocol : Protocol
  host : String
  user : String
  path : String
  deriving DecidableEq, Repr

/-- Outcome of protocolHandler.Connect: a Go panic, a connected endpoint
client (abstract handle), or an error return. -/
inductive ConnectOutcome where
  | panicked (message : String)
  | connected (client : Nat)
  | failed (e : GoError)
  deriving DecidableEq, Repr

/-- protocolHandler.Connect of the Docker protocol package (protocol.go lines
19-48). The URL kind and protocol are verified first, each mismatch being a
panic; then the Docker transport is created (newTransportRes models
docker.NewTransport), an agent is dialled in endpoint mode (dialRes models
agent.Dial on the transport), and the endpoint client is constructed
(newEndpointClientRes models remote.NewEndpointClient on the connection, whose
error Connect returns unwrapped). -/
def dockerConnect (url : URL) (newTransportRes : Except GoError Nat)
    (dialRes : Nat → Except GoError Nat)
    (newEndpointClientRes : Nat → Except GoError Nat) : ConnectOutcome :=
  if url.kind ≠ Kind.Synchronization then
    .panicked "non-synchronization URL dispatched to synchronization protocol handler"
  else if url.protocol ≠ Protocol.Docker then
    .panicked "non-Docker URL dispatched to Docker protocol handler"
  else
    match newTransportRes with
    | .error e => .failed (GoError.wrap e "unable to create Docker transport")
    | .ok transport =>
      match dialRes transport with
      | .error e => .failed (GoError.wrap e "unable to dial agent endpoint")
      | .ok connection =>
        match newEndpointClientRes connection with
        | .error e => .failed e
        | .ok client => .connected client
/-- Whether a Go error value is a wrapped error (produced by errors.Wrap)
rather than a base error returned as-is. -/
def GoError.isWrapped : GoError → Bool
  | .msg _ => false
  | .wrap _ _ => true

/-- C10 counterexample: a synchronization-kind Docker URL whose transport and
dial succeed but whose endpoint-client construction fails: Connect returns
that error exactly as the constructor produced it - not an endpoint client,
and not a wrapped error - refuting the claim that under the precondition
Connect returns either an endpoint client or a wrapped error. -/
theorem dockerConnect_unwrapped_error_counterexample :
    dockerConnect ⟨Kind.Synchronization, Protocol.Docker, "h", "u", "/p"⟩
        (.ok 1) (fun _ => .ok 2) (fun _ => .error (GoError.msg "client failure")) =
      ConnectOutcome.failed (GoError.msg "client failure") ∧
    (¬ ∃ c, dockerConnect ⟨Kind.Synchronization, Protocol.Docker, "h", "u", "/p"⟩
        (.ok 1) (fun _ => .ok 2) (fun _ => .error (GoError.msg "client failure")) =
      ConnectOutcome.connected c) ∧
    (GoError.msg "client failure").isWrapped = false := by
  refine ⟨rfl, ?_, rfl⟩
  rintro ⟨c, hc⟩
  change ConnectOutcome.failed (GoError.msg "client failure") =
    ConnectOutcome.connected c at hc
  cases hc

/-- C10 (amended): Connect panics exactly when the URL's kind is not
Synchronization or its protocol is not Docker; under the precondition that a
synchronization-kind Docker URL is dispatched to it, both panic branches are
unreachable and Connect returns either an endpoint client or an error, where a
transport-creation failure and an agent-dial failure are returned wrapped and
an endpoint-client-construction failure is returned as-is, unwrapped. -/
theorem dockerConnect_panic_iff_and_error_shapes (url : URL)
    (newTransportRes : Except GoError Nat) (dialRes : Nat → Except GoError Nat)
    (newEndpointClientRes : Nat → Except GoError Nat) :
    ((∃ m, dockerConnect url newTransportRes dialRes newEndpointClientRes =
        .panicked m) ↔
      (url.kind ≠ Kind.Synchronization ∨ url.protocol ≠ Protocol.Docker)) ∧
    (url.kind = Kind.Synchronization → url.protocol = Protocol.Docker →
      ((∃ c, dockerConnect url newTransportRes dialRes newEndpointClientRes =
          .connected c) ∨
        (∃ e, dockerConnect url newTransportRes dialRes newEndpointClientRes =
          .failed e)) ∧
      (∀ e, newTransportRes = .error e →
        dockerConnect url newTransportRes dialRes newEndpointClientRes =
          .failed (GoError.wrap e "unable to create Docker transport")) ∧
      (∀ t e, newTransportRes = .ok t → dialRes t = .error e →
        dockerConnect url newTransportRes dialRes newEndpointClientRes =
          .failed (GoError.wrap e "unable to dial agent endpoint")) ∧
      (∀ t conn e, newTransportRes = .ok t → dialRes t = .ok conn →
        newEndpointClientRes conn = .error e →
        dockerConnect url newTransportRes dialRes newEndpointClientRes =
          .failed e)) := by
  constructor
  · constructor
    · intro ⟨m, hm⟩
      by_contra hc
      push_neg at hc
      obtain ⟨hk, hp⟩ := hc
      simp only [dockerConnect, hk, hp, ne_eq, not_true_eq_false, if_false,
        ite_false] at hm
      cases newTransportRes with
      | error e => simp at hm
      | ok transport =>
        cases hd : dialRes transport with
        | error e => simp [hd] at hm
        | ok connection =>
          cases hcl : newEndpointClientRes connection with
          | error e => simp [hd, hcl] at hm
          | ok client => simp [hd, hcl] at hm
    · intro h
      by_cases hk : url.kind = Kind.Synchronization
      · have hp : url.protocol ≠ Protocol.Docker := by tauto
        exact ⟨"non-Docker URL dispatched to Docker protocol handler",
          by simp [dockerConnect, hk, hp]⟩
      · exact ⟨"non-synchronization URL dispatched to synchronization protocol handler",
          by simp [dockerConnect, hk]⟩
  · intro hk hp
    refine ⟨?_, ?_, ?_, ?_⟩
    · simp only [dockerConnect, hk, hp, ne_eq, not_true_eq_false, if_false,
        ite_false]
      cases newTransportRes with
      | error e =>
          exact Or.inr ⟨GoError.wrap e "unable to create Docker transport", rfl⟩
      | ok transport =>
        cases hd : dialRes transport with
        | error e =>
            exact Or.inr ⟨GoError.wrap e "unable to dial agent endpoint",
              by simp [hd]⟩
        | ok connection =>
          cases hcl : newEndpointClientRes connection with
          | error e => exact Or.inr ⟨e, by simp [hd, hcl]⟩
          | ok client => exact Or.inl ⟨client, by simp [hd, hcl]⟩
    · intro e he
      subst he
      simp [dockerConnect, hk, hp]
    · intro t e ht hd
      subst ht
      simp [dockerConnect, hk, hp, hd]
    · intro t conn e ht hd hcl
      subst ht
      simp [dockerConnect, hk, hp, hd, hcl]

/-- C10 witness: with all collaborators succeeding, a synchronization-kind
Docker URL neither panics nor fails; with a failing endpoint-client
constructor the error is returned exactly as produced; and a non-Docker URL
panics. -/
theorem dockerConnect_panic_iff_and_error_shapes_witness :
    ((∃ c, dockerConnect ⟨Kind.Synchronization, Protocol.Docker, "h", "u", "/p"⟩
          (.ok 1) (fun _ => .ok 2) (fun _ => .ok 3) = .connected c) ∨
      (∃ e, dockerConnect ⟨Kind.Synchronization, Protocol.Docker, "h", "u", "/p"⟩
          (.ok 1) (fun _ => .ok 2) (fun _ => .ok 3) = .failed e)) ∧
    (dockerConnect ⟨Kind.Synchronization, Protocol.Docker, "h", "u", "/p"⟩
        (.ok 1) (fun _ => .ok 2) (fun _ => .error (GoError.msg "client failure")) =
      .failed (GoError.msg "client failure")) ∧
    (∃ m, dockerConnect ⟨Kind.Synchronization, Protocol.SSH, "h", "u", "/p"⟩
        (.ok 1) (fun _ => .ok 2) (fun _ => .ok 3) = .panicked m) :=
  ⟨((dockerConnect_panic_iff_and_error_shapes
      ⟨Kind.Synchronization, Protocol.Docker, "h", "u", "/p"⟩
      (.ok 1) (fun _ => .ok 2) (fun _ => .ok 3)).2 rfl rfl).1,
   ((dockerConnect_panic_iff_and_error_shapes
      ⟨Kind.Synchronization, Protocol.Docker, "h", "u", "/p"⟩
      (.ok 1) (fun _ => .ok 2)
      (fun _ => .error (GoError.msg "client failure"))).2 rfl rfl).2.2.2
      1 2 (GoError.msg "client failure") rfl rfl rfl,
   (dockerConnect_panic_iff_and_error_shapes
      ⟨Kind.Synchronization, Protocol.SSH, "h", "u", "/p"⟩
      (.ok 1) (fun _ => .ok 2) (fun _ => .ok 3)).1.mpr (by decide)⟩
